import Mathlib

/-!
Shallow embedding of the BME680 sensor driver and IAQ scoring logic of the
edge-wasi-runtime repository.  Two implementations exist in the source tree:
the WASM plugin driver (`src/plugins/bme680/app.py`) and the native Pi Zero
service (`src/pizero-native/pizero_service.py`).  Python floats are modelled
as exact rationals (`ℚ`), byte values as `ℕ`, signed coefficients as `ℤ`,
and fallible bus transfers as `Except Unit (List ℕ)`.
-/

namespace EdgeWasi

/-- Signed 8-bit reinterpretation, `val if val < 128 else val - 256`
(`BME680._signed8` / inline conversions in the plugin). -/
def signed8 (v : ℕ) : ℤ := if v < 128 then (v : ℤ) else (v : ℤ) - 256

/-- Signed 16-bit reinterpretation, `val if val < 32768 else val - 65536`
(`BME680._signed16` / `BME680Driver._signed16`). -/
def signed16 (v : ℕ) : ℤ := if v < 32768 then (v : ℤ) else (v : ℤ) - 65536

/-- Temperature/humidity calibration coefficients held in `self.cal` by the
plugin driver (`BME680Driver`).  `h1` is stored as a float after the
`h1_raw / 16.0` rescale, all other fields are integers. -/
structure Cal where
  t1 : ℕ
  t2 : ℤ
  t3 : ℤ
  h1 : ℚ
  h2 : ℕ
  h3 : ℤ
  h4 : ℤ
  h5 : ℤ
  h6 : ℕ
  h7 : ℤ
deriving DecidableEq

/-- The hard-coded fallback coefficients of `BME680Driver._load_calibration`
(used on a caught exception; the two groups are also used separately on a
short read of the corresponding register block). -/
def defaultCal : Cal :=
  { t1 := 26000, t2 := 26500, t3 := 3,
    h1 := 800, h2 := 800, h3 := 0, h4 := 45, h5 := 20, h6 := 120, h7 := -100 }

/-- Embedding of `BME680Driver._load_calibration`: four block reads (register, length) =
(0xE9,2), (0x8A,3), (0xE1,3), (0xE4,5).  Any raised bus error is caught by
the surrounding `except` and replaced by the full default set; a read that
returns fewer bytes than checked replaces only that coefficient group by its
defaults.  The second component records the reads that were attempted, in
order, before the function returned. -/
def loadCalibrationPlugin (rd : ℕ → ℕ → Except Unit (List ℕ)) :
    Cal × List (ℕ × ℕ) :=
  match rd 0xE9 2 with
  | .error _ => (defaultCal, [(0xE9, 2)])
  | .ok t1d =>
    match rd 0x8A 3 with
    | .error _ => (defaultCal, [(0xE9, 2), (0x8A, 3)])
    | .ok t23d =>
      let tpart : ℕ × ℤ × ℤ :=
        if 2 ≤ t1d.length ∧ 3 ≤ t23d.length then
          (t1d.getD 0 0 ||| (t1d.getD 1 0 <<< 8),
           signed16 (t23d.getD 0 0 ||| (t23d.getD 1 0 <<< 8)),
           signed8 (t23d.getD 2 0))
        else (26000, 26500, 3)
      match rd 0xE1 3 with
      | .error _ => (defaultCal, [(0xE9, 2), (0x8A, 3), (0xE1, 3)])
      | .ok h1d =>
        match rd 0xE4 5 with
        | .error _ => (defaultCal, [(0xE9, 2), (0x8A, 3), (0xE1, 3), (0xE4, 5)])
        | .ok h2d =>
          let hpart : ℚ × ℕ × ℤ × ℤ × ℤ × ℕ × ℤ :=
            if 3 ≤ h1d.length ∧ 5 ≤ h2d.length then
              let h2raw := (h1d.getD 0 0 <<< 4) ||| (h1d.getD 1 0 >>> 4)
              let h1raw := (h1d.getD 2 0 <<< 4) ||| (h1d.getD 1 0 &&& 0x0F)
              (((h1raw : ℚ) / 16), h2raw * 16 + h1raw % 16,
               signed8 (h2d.getD 0 0), signed8 (h2d.getD 1 0),
               signed8 (h2d.getD 2 0), h2d.getD 3 0, signed8 (h2d.getD 4 0))
            else (800, 800, 0, 45, 20, 120, -100)
          ({ t1 := tpart.1, t2 := tpart.2.1, t3 := tpart.2.2,
             h1 := hpart.1, h2 := hpart.2.1, h3 := hpart.2.2.1,
             h4 := hpart.2.2.2.1, h5 := hpart.2.2.2.2.1,
             h6 := hpart.2.2.2.2.2.1, h7 := hpart.2.2.2.2.2.2 },
           [(0xE9, 2), (0x8A, 3), (0xE1, 3), (0xE4, 5)])

/-- A compensated sample as returned by `BME680Driver.get_readings`
(`(temp, humidity, pressure, gas)` tuple). -/
structure Reading where
  temperature : ℚ
  humidity : ℚ
  pressure : ℚ
  gas : ℚ
deriving DecidableEq

/-- The intermediate `t_fine = var1 + var2` of the Bosch temperature compensation as written
in `BME680Driver.get_readings` / `BME680.read`. -/
def tFineQ (t1 t2 t3 raw : ℚ) : ℚ :=
  let var1 := ((raw / 16384) - (t1 / 1024)) * t2
  let var2 := (raw / 131072) - (t1 / 8192)
  let var2 := var2 * var2 * t3 * 16
  var1 + var2

/-- Humidity compensation polynomial of `BME680Driver.get_readings`
(lines: temp_scaled, var1..var6, final scaling and clamp to [0,100]),
as a function of the retained `t_fine` intermediate. -/
def humidityFromTFine (c : Cal) (t_fine raw_hum : ℚ) : ℚ :=
  let temp_scaled := ((t_fine * 5) + 128) / 256
  let var1 := (raw_hum - (c.h1 * 16)) - ((temp_scaled * (c.h3 : ℚ)) / 200)
  let var2 := (c.h2 : ℚ) *
    (((temp_scaled * (c.h4 : ℚ)) / 100) +
      (((temp_scaled * ((temp_scaled * (c.h5 : ℚ)) / 100)) / 64) / 100) +
      16384) / 1024
  let var3 := var1 * var2
  let var4 := (c.h6 : ℚ) * 128
  let var4 := (var4 + ((temp_scaled * (c.h7 : ℚ)) / 100)) / 16
  let var5 := ((var3 / 16384) * (var3 / 16384)) / 1024
  let var6 := (var4 * var5) / 2
  let humidity := (((var3 + var6) / 1024) * 1000) / 4096
  let humidity := humidity / 1000
  if humidity > 100 then 100 else if humidity < 0 then 0 else humidity

/-- Raw 20-bit temperature ADC code `(data[5]<<12)|(data[6]<<4)|(data[7]>>4)`. -/
def rawTempOf (data : List ℕ) : ℕ :=
  (data.getD 5 0 <<< 12) ||| (data.getD 6 0 <<< 4) ||| (data.getD 7 0 >>> 4)

/-- Raw 16-bit humidity ADC code `(data[8]<<8)|data[9]`. -/
def rawHumOf (data : List ℕ) : ℕ :=
  (data.getD 8 0 <<< 8) ||| data.getD 9 0

/-- Raw 20-bit pressure ADC code `(data[2]<<12)|(data[3]<<4)|(data[4]>>4)`. -/
def rawPresOf (data : List ℕ) : ℕ :=
  (data.getD 2 0 <<< 12) ||| (data.getD 3 0 <<< 4) ||| (data.getD 4 0 >>> 4)

/-- Gas parsing of the plugin driver: `gas_status = data[14] & 0x30`; when
truthy, `raw_gas = (data[13] << 2) | (data[14] >> 6)` and
`gas = float(raw_gas) * 2.5`, else 0. -/
def gasCompPlugin (d13 d14 : ℕ) : ℚ :=
  if d14 &&& 0x30 ≠ 0 then (((d13 <<< 2) ||| (d14 >>> 6) : ℕ) : ℚ) * 2.5
  else 0

/-- Embedding of `BME680Driver.get_readings` after the status-poll loop: `none` models
the short-data guard; otherwise temperature, humidity (via the stored
`t_fine`), pressure (`raw_pres/100`) and gas (`gasCompPlugin`) are computed
exactly as in the source. -/
def getReadingsPlugin (c : Cal) (data : List ℕ) : Option Reading :=
  if data.length < 15 then none
  else
    let t_fine := tFineQ (c.t1 : ℚ) (c.t2 : ℚ) (c.t3 : ℚ) (rawTempOf data : ℚ)
    let temp := t_fine / 5120
    let humidity := humidityFromTFine c t_fine (rawHumOf data : ℚ)
    let pressure := (rawPresOf data : ℚ) / 100
    let gas := gasCompPlugin (data.getD 13 0) (data.getD 14 0)
    some ⟨temp, humidity, pressure, gas⟩

/-- The module-level mutable IAQ state of the plugin
(`gas_baseline`, `burn_in_count`, `gas_history`, `bad_iaq_alarm`). -/
structure IAQState where
  gas_baseline : ℚ
  burn_in_count : ℕ
  gas_history : List ℚ
  bad_iaq_alarm : Bool
deriving DecidableEq

/-- Initial plugin state: `gas_baseline = 0.0`, `burn_in_count = 0`,
`gas_history = []`, `bad_iaq_alarm = False`. -/
def initState : IAQState := ⟨0, 0, [], false⟩

/-- Python `int()` applied to a float: truncation toward zero. -/
def pyInt (x : ℚ) : ℤ := if 0 ≤ x then ⌊x⌋ else -⌊-x⌋

/-- Gas sub-score of `Bme680Logic.poll` / `BME680.calculate_iaq`: the ratio
formula with clamp when `gas_baseline > 0 and gas > 0`, otherwise the
neutral fallback 25. -/
def gasScore (gas_baseline gas : ℚ) : ℚ :=
  if 0 < gas_baseline ∧ 0 < gas then
    let gas_ratio := gas / gas_baseline
    let g : ℚ := if 1 ≤ gas_ratio then 0 else (1 - gas_ratio) * 75
    max 0 (min 75 g)
  else 25

/-- Humidity sub-score: `min(25, (abs(humidity - 40)/60)*25)`. -/
def humScoreQ (humidity : ℚ) : ℚ :=
  let hum_offset := |humidity - 40|
  min 25 ((hum_offset / 60) * 25)

/-- Alarm update of `Bme680Logic.poll` (LED band `else` branch plus the
re-arm check): on `iaq > 200` with the flag clear, beep once and set the
flag; on `iaq <= 180` with the flag set, clear it.  Returns
`(new flag, beep fired, flag cleared)`. -/
def alarmStep (alarm : Bool) (iaq : ℤ) : Bool × Bool × Bool :=
  let raised := if 200 < iaq ∧ alarm = false then true else false
  let a1 := if 200 < iaq then true else alarm
  let cleared := if iaq ≤ 180 ∧ a1 = true then true else false
  let a2 := if iaq ≤ 180 ∧ a1 = true then false else a1
  (a2, raised, cleared)

/-- Per-poll output of the IAQ logic: the reading fields `iaq_score` and
`iaq_accuracy` together with the alarm events of that poll. -/
structure PollOut where
  iaq : ℤ
  accuracy : ℕ
  raised : Bool
  cleared : Bool
deriving DecidableEq

/-- One iteration of `Bme680Logic.poll` on the IAQ state, given the result
of `driver.get_readings()`.  `none` models both a caught bus exception and
the short-data `None` return: the state is returned untouched and no reading
is appended.  On a reading: increment `burn_in_count`, append to the 5-deep
`gas_history`, then either the calibration branch (`burn_in_count < 12`,
peak-tracking baseline, `iaq = 0`, `iaq_accuracy = 0`) or the active branch
(baseline drift `0.995/0.005`, gas and humidity sub-scores, composite
`int((gas_score + hum_score) * 3.0)` clamped to [0,500], `iaq_accuracy = 1`,
alarm hysteresis). -/
def pollStep (s : IAQState) (r : Option Reading) : IAQState × Option PollOut :=
  match r with
  | none => (s, none)
  | some rdg =>
    let burn := s.burn_in_count + 1
    let hist0 := s.gas_history ++ [rdg.gas]
    let hist := if 5 < hist0.length then hist0.tail else hist0
    if burn < 12 then
      let base := if s.gas_baseline < rdg.gas then rdg.gas else s.gas_baseline
      (⟨base, burn, hist, s.bad_iaq_alarm⟩, some ⟨0, 0, false, false⟩)
    else
      let base :=
        if s.gas_baseline < rdg.gas then rdg.gas
        else s.gas_baseline * 0.995 + rdg.gas * 0.005
      let gas_sc := gasScore base rdg.gas
      let hum_sc := humScoreQ rdg.humidity
      let iaq0 := pyInt ((gas_sc + hum_sc) * 3)
      let iaq := min 500 (max 0 iaq0)
      let a := alarmStep s.bad_iaq_alarm iaq
      (⟨base, burn, hist, a.1⟩, some ⟨iaq, 1, a.2.1, a.2.2⟩)

/-- Embedding of `Bme680Logic.poll` end to end for one cycle: the driver's calibration
set is read-only during a poll, the raw block (or its absence, on a bus
error) is decoded by `getReadingsPlugin`, and the IAQ state is advanced by
`pollStep`. -/
def pollTop (c : Cal) (s : IAQState) (data : Option (List ℕ)) :
    Cal × IAQState × Option PollOut :=
  let r := data.bind (getReadingsPlugin c)
  let st := pollStep s r
  (c, st.1, st.2)

/-- Fold `pollStep` over a sequence of poll results, keeping the state. -/
def runPoll (s : IAQState) (inputs : List (Option Reading)) : IAQState :=
  inputs.foldl (fun st r => (pollStep st r).1) s

/-- Number of successful polls (those that obtain a reading). -/
def countSome (inputs : List (Option Reading)) : ℕ :=
  (inputs.filter Option.isSome).length

/-- Fold `alarmStep` over a score sequence from a given flag state,
counting beep (raise) and clear events:
`(final flag, #raises, #clears)`. -/
def alarmRun (a : Bool) : List ℤ → Bool × ℕ × ℕ
  | [] => (a, 0, 0)
  | x :: xs =>
    let st := alarmStep a x
    let rest := alarmRun st.1 xs
    (rest.1, (if st.2.1 then 1 else 0) + rest.2.1,
     (if st.2.2 then 1 else 0) + rest.2.2)

/-! ## Native service (`pizero_service.py`) -/

/-- The fixed doubling gas range lookup of `BME680.read`. -/
def rangeTable : List ℕ :=
  [1, 2, 4, 8, 16, 32, 64, 128, 256, 512,
   1024, 2048, 4096, 8192, 16384, 32768]

/-- Gas resistance computation of the native `BME680.read` from the two data
bytes `data[13]`, `data[14]`: both status bits (`0x20` gas valid, `0x10`
heater stable) must be set; `raw_gas = (data[13]<<2)|((data[14]&0xC0)>>6)`;
when positive, `(1340.0*1000000.0)/(raw_gas*range_table[range])/1000.0`
capped by `min(gas, 1000.0)` (KΩ), else 0. -/
def gasCompNative (d13 d14 : ℕ) : ℚ :=
  let gas_valid := d14 &&& 0x20 ≠ 0
  let heater_stab := d14 &&& 0x10 ≠ 0
  if gas_valid ∧ heater_stab then
    let raw_gas := (d13 <<< 2) ||| ((d14 &&& 0xC0) >>> 6)
    let gas_range := d14 &&& 0x0F
    if 0 < raw_gas then
      let gas : ℚ :=
        (1340 * 1000000 : ℚ) /
          ((raw_gas : ℚ) * (rangeTable.getD gas_range 0 : ℕ)) / 1000
      min gas 1000
    else 0
  else 0

/-- Pressure calibration coefficients `p1..p10` of the native service. -/
structure PCal where
  p1 : ℕ
  p2 : ℤ
  p3 : ℤ
  p4 : ℤ
  p5 : ℤ
  p6 : ℤ
  p7 : ℤ
  p8 : ℤ
  p9 : ℤ
  p10 : ℕ
deriving DecidableEq

/-- Pressure compensation of the native `BME680.read`: first polynomial pass
producing `var1`/`var2`, the `if var1 != 0` guard, the second pass, and the
final `/100` conversion to hPa.  When `var1 = 0` the second pass is skipped
and `1048576 - raw_pres` is returned (scaled by `/100`). -/
def pressureNative (c : PCal) (t_fine raw_pres : ℚ) : ℚ :=
  let var1 := (t_fine / 2) - 64000
  let var2 := var1 * var1 * (c.p6 : ℚ) / 131072
  let var2 := var2 + (var1 * (c.p5 : ℚ) * 2)
  let var2 := (var2 / 4) + ((c.p4 : ℚ) * 65536)
  let var1 := ((c.p3 : ℚ) * var1 * var1 / 16384 + (c.p2 : ℚ) * var1) / 524288
  let var1 := (1 + var1 / 32768) * (c.p1 : ℚ)
  let pressure := 1048576 - raw_pres
  let pressure :=
    if var1 ≠ 0 then
      let p := (pressure - (var2 / 4096)) * 6250 / var1
      let v1 := (c.p9 : ℚ) * p * p / 2147483648
      let v2 := p * (c.p8 : ℚ) / 32768
      let v3 := ((p / 256) ^ 3) * (c.p10 : ℚ) / 131072
      p + (v1 + v2 + v3 + (c.p7 : ℚ) * 128) / 16
    else pressure
  pressure / 100

/-- Full calibration set of the native service (temperature, humidity and
pressure groups). -/
structure NativeCal where
  t1 : ℕ
  t2 : ℤ
  t3 : ℤ
  h1 : ℚ
  h2 : ℕ
  h3 : ℤ
  h4 : ℤ
  h5 : ℤ
  h6 : ℕ
  h7 : ℤ
  p : PCal
deriving DecidableEq

/-- Embedding of `BME680.init_sensor`: read the chip-identification register 0xD0 first;
if it is not 0x61 the function returns `False` (modelled `none`) without any
further register access; otherwise the temperature, humidity and pressure
calibration blocks are read and decoded.  A raised bus error at any point is
caught and yields `False` as well.  The second component is the ordered list
of attempted block reads `(register, length)`. -/
def initSensorNative (rd : ℕ → ℕ → Except Unit (List ℕ)) :
    Option NativeCal × List (ℕ × ℕ) :=
  match rd 0xD0 1 with
  | .error _ => (none, [(0xD0, 1)])
  | .ok idl =>
    if idl.getD 0 0 ≠ 0x61 then (none, [(0xD0, 1)])
    else
      match rd 0xE9 2 with
      | .error _ => (none, [(0xD0, 1), (0xE9, 2)])
      | .ok t1d =>
        match rd 0x8A 3 with
        | .error _ => (none, [(0xD0, 1), (0xE9, 2), (0x8A, 3)])
        | .ok t23d =>
          match rd 0xE1 3 with
          | .error _ => (none, [(0xD0, 1), (0xE9, 2), (0x8A, 3), (0xE1, 3)])
          | .ok h1d =>
            match rd 0xE4 5 with
            | .error _ =>
              (none, [(0xD0, 1), (0xE9, 2), (0x8A, 3), (0xE1, 3), (0xE4, 5)])
            | .ok h2d =>
              match rd 0x8E 16 with
              | .error _ =>
                (none, [(0xD0, 1), (0xE9, 2), (0x8A, 3), (0xE1, 3), (0xE4, 5),
                        (0x8E, 16)])
              | .ok pd1 =>
                match rd 0x9E 2 with
                | .error _ =>
                  (none, [(0xD0, 1), (0xE9, 2), (0x8A, 3), (0xE1, 3),
                          (0xE4, 5), (0x8E, 16), (0x9E, 2)])
                | .ok pd2 =>
                  let h2raw := (h1d.getD 0 0 <<< 4) ||| (h1d.getD 1 0 >>> 4)
                  let h1raw := (h1d.getD 2 0 <<< 4) ||| (h1d.getD 1 0 &&& 0x0F)
                  (some
                    { t1 := t1d.getD 0 0 ||| (t1d.getD 1 0 <<< 8),
                      t2 := signed16 (t23d.getD 0 0 ||| (t23d.getD 1 0 <<< 8)),
                      t3 := signed8 (t23d.getD 2 0),
                      h1 := (h1raw : ℚ) / 16,
                      h2 := h2raw * 16 + h1raw % 16,
                      h3 := signed8 (h2d.getD 0 0),
                      h4 := signed8 (h2d.getD 1 0),
                      h5 := signed8 (h2d.getD 2 0),
                      h6 := h2d.getD 3 0,
                      h7 := signed8 (h2d.getD 4 0),
                      p :=
                        { p1 := pd1.getD 0 0 ||| (pd1.getD 1 0 <<< 8),
                          p2 := signed16 (pd1.getD 2 0 ||| (pd1.getD 3 0 <<< 8)),
                          p3 := signed8 (pd1.getD 4 0),
                          p4 := signed16 (pd1.getD 6 0 ||| (pd1.getD 7 0 <<< 8)),
                          p5 := signed16 (pd1.getD 8 0 ||| (pd1.getD 9 0 <<< 8)),
                          p6 := signed8 (pd1.getD 11 0),
                          p7 := signed8 (pd1.getD 10 0),
                          p8 := signed16 (pd1.getD 14 0 ||| (pd1.getD 15 0 <<< 8)),
                          p9 := signed16 (pd2.getD 0 0 ||| (pd2.getD 1 0 <<< 8)),
                          p10 := pd1.getD 13 0 } },
                   [(0xD0, 1), (0xE9, 2), (0x8A, 3), (0xE1, 3), (0xE4, 5),
                    (0x8E, 16), (0x9E, 2)])

/-! ## Spec-side reference definitions (for refinement comparisons) -/

/-- Spec formula for the gas resistance in ohms: `(1340 × 1_000_000) /
(raw_gas × range_table[range_index])` when `raw_gas > 0`, else 0, capped at
the configured ceiling (1 MΩ, the native service's 1000 KΩ). -/
def specGasResistanceOhm (raw_gas idx : ℕ) : ℚ :=
  if 0 < raw_gas then
    min ((1340 * 1000000 : ℚ) / ((raw_gas : ℚ) * (rangeTable.getD idx 0 : ℕ)))
      1000000
  else 0

/-- Spec formula for `t_fine`:
`var1 = (raw/16384 − t1/1024) × t2`, `var2 = ((raw/131072 − t1/8192)²) × t3 × 16`,
`t_fine = var1 + var2`. -/
def tFineSpecQ (t1 t2 t3 raw : ℚ) : ℚ :=
  ((raw / 16384) - (t1 / 1024)) * t2 +
    (((raw / 131072) - (t1 / 8192)) ^ 2) * t3 * 16

/-- Spec formula for the compensated temperature: `t_fine / 5120`. -/
def tempSpecQ (t1 t2 t3 raw : ℚ) : ℚ := tFineSpecQ t1 t2 t3 raw / 5120

/-- Gas sub-score as the claim states it: ratio formula whenever the
baseline is positive, neutral fallback only when the baseline is 0. -/
def gasScoreSpec (baseline gas : ℚ) : ℚ :=
  if baseline = 0 then 25
  else
    let ratio := gas / baseline
    if 1 ≤ ratio then 0 else max 0 (min 75 ((1 - ratio) * 75))

/-- First-pass denominator `var1` of the spec's two-pass pressure formula. -/
def firstPassVar1 (c : PCal) (t_fine : ℚ) : ℚ :=
  let v := (t_fine / 2) - 64000
  (1 + (((c.p3 : ℚ) * v * v / 16384 + (c.p2 : ℚ) * v) / 524288) / 32768) *
    (c.p1 : ℚ)

/-- First-pass `var2` of the spec's two-pass pressure formula. -/
def firstPassVar2 (c : PCal) (t_fine : ℚ) : ℚ :=
  let v := (t_fine / 2) - 64000
  ((v * v * (c.p6 : ℚ) / 131072 + v * (c.p5 : ℚ) * 2) / 4) + (c.p4 : ℚ) * 65536

/-- Second pass of the spec's pressure formula (in Pa, before the `/100`
conversion): applied only when `firstPassVar1` is non-zero. -/
def secondPassPressure (c : PCal) (t_fine raw_pres : ℚ) : ℚ :=
  let p := ((1048576 - raw_pres) - firstPassVar2 c t_fine / 4096) * 6250 /
    firstPassVar1 c t_fine
  p + ((c.p9 : ℚ) * p * p / 2147483648 + p * (c.p8 : ℚ) / 32768 +
    ((p / 256) ^ 3) * (c.p10 : ℚ) / 131072 + (c.p7 : ℚ) * 128) / 16

/-- A bus stub that answers the four calibration block reads of the plugin
driver with the given byte lists and fails on anything else. -/
def rdBytes (t1d t23d h1d h2d : List ℕ) : ℕ → ℕ → Except Unit (List ℕ) :=
  fun reg _ =>
    if reg = 0xE9 then .ok t1d
    else if reg = 0x8A then .ok t23d
    else if reg = 0xE1 then .ok h1d
    else if reg = 0xE4 then .ok h2d
    else .error ()

/-- A bus stub modelling a device whose chip-identification register 0xD0
holds 0 (not the expected 0x61) while every block read succeeds with
zero-filled bytes of the requested length. -/
def rdChipZero : ℕ → ℕ → Except Unit (List ℕ) :=
  fun reg len => if reg = 0xD0 then .ok [0] else .ok (List.replicate len 0)

/-- A bus stub on which every transfer raises. -/
def rdFailAll : ℕ → ℕ → Except Unit (List ℕ) := fun _ _ => .error ()

/-! ## Theorems -/

/-- C4: for every byte triple (E1, E2, E3) read at register 0xE1, the
calibration decode stores exactly `h2 = ((E1<<4)|(E2>>4)) * 16 +
(((E3<<4)|(E2&0x0F)) mod 16)` and `h1 = ((E3<<4)|(E2&0x0F)) / 16.0` — the
two-step unpack-then-rescale is applied in full. -/
theorem humidity_unpack_two_step (e1 e2 e3 : ℕ) (t1d t23d h2d : List ℕ)
    (he1 : e1 < 256) (he2 : e2 < 256) (he3 : e3 < 256)
    (ht1 : 2 ≤ t1d.length) (ht2 : 3 ≤ t23d.length) (hh2 : 5 ≤ h2d.length) :
    (loadCalibrationPlugin (rdBytes t1d t23d [e1, e2, e3] h2d)).1.h2 =
      ((e1 <<< 4) ||| (e2 >>> 4)) * 16 + (((e3 <<< 4) ||| (e2 &&& 0x0F)) % 16) ∧
    (loadCalibrationPlugin (rdBytes t1d t23d [e1, e2, e3] h2d)).1.h1 =
      (((e3 <<< 4) ||| (e2 &&& 0x0F) : ℕ) : ℚ) / 16 := by
  simp [loadCalibrationPlugin, rdBytes, ht1, ht2, hh2]

/-- Witness for C4 at the concrete byte triple (0x3F, 0xAB, 0x67). -/
theorem humidity_unpack_two_step_witness :
    (loadCalibrationPlugin
        (rdBytes [0, 0] [0, 0, 0] [0x3F, 0xAB, 0x67] [0, 0, 0, 0, 0])).1.h2 =
        ((0x3F <<< 4) ||| (0xAB >>> 4)) * 16 +
          (((0x67 <<< 4) ||| (0xAB &&& 0x0F)) % 16) ∧
    (loadCalibrationPlugin
        (rdBytes [0, 0] [0, 0, 0] [0x3F, 0xAB, 0x67] [0, 0, 0, 0, 0])).1.h1 =
      (((0x67 <<< 4) ||| (0xAB &&& 0x0F) : ℕ) : ℚ) / 16 :=
  humidity_unpack_two_step 0x3F 0xAB 0x67 [0, 0] [0, 0, 0] [0, 0, 0, 0, 0]
    (by decide) (by decide) (by decide) (by decide) (by decide) (by decide)

/-- C7 counterexample: with a positive baseline (100) and a gas reading of
0, the code returns the neutral fallback 25, while the claim's formula
(fallback only at baseline 0, ratio formula otherwise) yields 75. -/
theorem gas_score_zero_gas_cex :
    gasScore 100 0 = 25 ∧ gasScoreSpec 100 0 = 75 ∧ (25 : ℚ) ≠ 75 := by
  refine ⟨by norm_num [gasScore], ?_, by norm_num⟩
  norm_num [gasScoreSpec]

/-- C7 (amended): the gas sub-score follows the ratio formula (0 when the
ratio is ≥ 1, `(1 − ratio) × 75` clamped to [0,75] otherwise) whenever both
the baseline and the gas reading are positive; the neutral fallback 25 is
used whenever the baseline is not positive or the gas reading is not
positive (so in particular no division by zero occurs). -/
theorem gas_score_ratio_formula (b g : ℚ) :
    (0 < b → 0 < g →
      gasScore b g = if 1 ≤ g / b then 0 else max 0 (min 75 ((1 - g / b) * 75))) ∧
    (¬(0 < b ∧ 0 < g) → gasScore b g = 25) := by
  constructor
  · intro hb hg
    rw [gasScore, if_pos ⟨hb, hg⟩]
    by_cases hr : 1 ≤ g / b
    · simp only [hr, if_pos, if_true]
      norm_num
    · simp only [hr, if_false, if_neg hr]
  · intro h
    rw [gasScore, if_neg h]

/-- Witness for C7 at baseline 2, gas 1 (ratio branch) and baseline 0
(fallback branch). -/
theorem gas_score_ratio_formula_witness :
    gasScore 2 1 = 75 / 2 ∧ gasScore 0 5 = 25 := by
  constructor
  · have h := (gas_score_ratio_formula 2 1).1 (by norm_num) (by norm_num)
    rw [h]; norm_num
  · exact (gas_score_ratio_formula 0 5).2 (by norm_num)

/-- C8: a failed poll (bus exception caught at the driver boundary, or a
data block shorter than 15 bytes) produces no reading and leaves the
calibration set and every component of the IAQ state exactly as they were. -/
theorem failed_poll_preserves_state (c : Cal) (s : IAQState) :
    pollTop c s none = (c, s, none) ∧
    ∀ l : List ℕ, l.length < 15 → pollTop c s (some l) = (c, s, none) := by
  refine ⟨rfl, fun l hl => ?_⟩
  simp [pollTop, getReadingsPlugin, hl, pollStep]

/-- Witness for C8 at the initial state with a 3-byte truncated block. -/
theorem failed_poll_preserves_state_witness :
    pollTop defaultCal initState (some [1, 2, 3]) =
      (defaultCal, initState, none) :=
  (failed_poll_preserves_state defaultCal initState).2 [1, 2, 3] (by decide)

/-- C1 (amended, native service): `BME680.read` reports gas in KΩ; scaled
back to ohms (×1000) it equals the spec formula
`(1340 × 1_000_000) / (raw_gas × range_table[range_index])` capped at the
1 MΩ ceiling whenever both status bits (bit 5 gas valid, bit 4 heater
stable) are set, it is 0 whenever `raw_gas = 0` (no division by zero, for
every range index), and it is 0 whenever either status bit is clear. -/
theorem gas_resistance_native (d13 d14 : ℕ) :
    (d14 &&& 0x20 ≠ 0 → d14 &&& 0x10 ≠ 0 →
      gasCompNative d13 d14 * 1000 =
        specGasResistanceOhm ((d13 <<< 2) ||| ((d14 &&& 0xC0) >>> 6))
          (d14 &&& 0x0F)) ∧
    ((d13 <<< 2) ||| ((d14 &&& 0xC0) >>> 6) = 0 → gasCompNative d13 d14 = 0) ∧
    (¬(d14 &&& 0x20 ≠ 0 ∧ d14 &&& 0x10 ≠ 0) → gasCompNative d13 d14 = 0) := by
  refine ⟨fun h20 h10 => ?_, fun hraw => ?_, fun hbits => ?_⟩
  · rw [gasCompNative, if_pos ⟨h20, h10⟩, specGasResistanceOhm]
    by_cases hr : 0 < (d13 <<< 2) ||| ((d14 &&& 0xC0) >>> 6)
    · simp only [if_pos hr]
      push_cast
      rw [min_mul_of_nonneg _ _ (by norm_num : (0 : ℚ) ≤ 1000),
        div_mul_cancel₀ _ (by norm_num : (1000 : ℚ) ≠ 0)]
      norm_num
    · simp only [if_neg hr, zero_mul]
  · rw [gasCompNative]
    by_cases hbits : d14 &&& 0x20 ≠ 0 ∧ d14 &&& 0x10 ≠ 0
    · rw [if_pos hbits, if_neg (by simp [hraw])]
    · rw [if_neg hbits]
  · rw [gasCompNative, if_neg hbits]

/-- Witness for C1 at `data[13] = 209`, `data[14] = 0x35` (both status bits
set, range index 5, `raw_gas = 836`) and at `data[14] = 0x20` with
`data[13] = 0` (zero raw gas). -/
theorem gas_resistance_native_witness :
    gasCompNative 209 0x35 * 1000 = specGasResistanceOhm 836 5 ∧
    gasCompNative 0 0x30 = 0 ∧ gasCompNative 209 0 = 0 := by
  refine ⟨?_, ?_, ?_⟩
  · have h := (gas_resistance_native 209 0x35).1 (by decide) (by decide)
    simpa using h
  · exact (gas_resistance_native 0 0x30).2.1 (by decide)
  · exact (gas_resistance_native 209 0).2.2 (by decide)

/-- C1 counterexample: the plugin driver (`BME680Driver.get_readings`)
reports a non-zero gas value on a successful poll whose status byte has the
heater-stable bit (bit 4) clear — `data[14] = 0x20` sets only gas-valid —
where the claim requires 0; it uses `raw_gas * 2.5` with no range table. -/
theorem gas_resistance_plugin_cex :
    (getReadingsPlugin defaultCal
        [0, 0, 0, 0, 0, 0, 0, 0, 0, 0, 0, 0, 0, 4, 0x20, 0, 0]).map
        (fun r => r.gas) = some (gasCompPlugin 4 0x20) ∧
    gasCompPlugin 4 0x20 = 40 ∧ 0x20 &&& 0x10 = 0 ∧ ((40 : ℚ) ≠ 0) := by
  refine ⟨?_, ?_, by decide, by norm_num⟩
  · simp [getReadingsPlugin]
  · rw [gasCompPlugin, if_pos (by decide),
      show (4 <<< 2) ||| (0x20 >>> 6) = 16 from by decide]
    norm_num

/-- The burn-in counter after a poll: incremented exactly when a reading
was obtained. -/
theorem pollStep_count (s : IAQState) (inp : Option Reading) :
    (pollStep s inp).1.burn_in_count =
      s.burn_in_count + (if inp.isSome then 1 else 0) := by
  cases inp with
  | none => simp [pollStep]
  | some r =>
    simp only [pollStep, Option.isSome_some, if_true]
    split <;> rfl

/-- Folding `pollStep` from any state adds the number of successful polls
to the burn-in counter. -/
theorem runPoll_count (inputs : List (Option Reading)) :
    ∀ s : IAQState,
      (runPoll s inputs).burn_in_count = s.burn_in_count + countSome inputs := by
  induction inputs with
  | nil => intro s; simp [runPoll, countSome]
  | cons i is ih =>
    intro s
    have hstep := pollStep_count s i
    have h2 : countSome (i :: is) = (if i.isSome then 1 else 0) + countSome is := by
      cases i <;> simp [countSome] <;> omega
    simp only [runPoll, List.foldl_cons] at *
    rw [ih, hstep, h2]
    omega

/-- C2: the IAQ machine with burn-in threshold 12 reports `iaq_score = 0`,
`accuracy = 0` and runs no alarm logic on each successful poll numbered 1
through 11 (counter after increment still below 12); from the 12th
successful poll onward every poll is scored with `accuracy = 1`; the
burn-in counter never decreases under any input (including a gas reading of
0 and failed polls), so the machine never re-enters the calibrating state;
and after any input sequence from the initial state the counter equals the
number of successful polls, tying poll numbering to the counter. -/
theorem burn_in_gate (s : IAQState) (r : Reading) :
    (s.burn_in_count + 1 < 12 →
      (pollStep s (some r)).2 = some ⟨0, 0, false, false⟩ ∧
      (pollStep s (some r)).1.bad_iaq_alarm = s.bad_iaq_alarm) ∧
    (12 ≤ s.burn_in_count + 1 →
      (pollStep s (some r)).2.map (fun o => o.accuracy) = some 1) ∧
    (∀ inp : Option Reading,
      s.burn_in_count ≤ ((pollStep s inp).1).burn_in_count) ∧
    (∀ inputs : List (Option Reading),
      (runPoll initState inputs).burn_in_count = countSome inputs) := by
  refine ⟨fun h => ?_, fun h => ?_, fun inp => ?_, fun inputs => ?_⟩
  · rw [pollStep]
    simp only [if_pos h]
    exact ⟨trivial, trivial⟩
  · rw [pollStep]
    simp only [if_neg (by omega : ¬ s.burn_in_count + 1 < 12)]
    rfl
  · rw [pollStep_count]
    split <;> omega
  · have h := runPoll_count inputs initState
    simpa [initState] using h

/-- Witness for C2: the first poll from the initial state reports 0/0; a
poll at counter 11 (the 12th successful poll) reports accuracy 1 even with
gas 0; the counter is monotone at a concrete step; and a run with one
success and one failure counts 1. -/
theorem burn_in_gate_witness :
    (pollStep initState (some ⟨25, 50, 1000, 100⟩)).2 = some ⟨0, 0, false, false⟩ ∧
    (pollStep ⟨100, 11, [], false⟩ (some ⟨25, 50, 1000, 0⟩)).2.map
      (fun o => o.accuracy) = some 1 ∧
    (⟨100, 11, [], false⟩ : IAQState).burn_in_count ≤
      (pollStep ⟨100, 11, [], false⟩ (some ⟨25, 50, 1000, 0⟩)).1.burn_in_count ∧
    (runPoll initState [some ⟨25, 50, 1000, 100⟩, none]).burn_in_count = 1 := by
  refine ⟨((burn_in_gate initState ⟨25, 50, 1000, 100⟩).1 (by norm_num [initState])).1,
    (burn_in_gate ⟨100, 11, [], false⟩ ⟨25, 50, 1000, 0⟩).2.1 (by norm_num), ?_, ?_⟩
  · exact (burn_in_gate ⟨100, 11, [], false⟩ ⟨25, 50, 1000, 0⟩).2.2.1
      (some ⟨25, 50, 1000, 0⟩)
  · rw [(burn_in_gate initState ⟨25, 50, 1000, 100⟩).2.2.2
      [some ⟨25, 50, 1000, 100⟩, none]]
    rfl

/-- Event counts compose over list concatenation, threading the alarm flag. -/
theorem alarmRun_append (xs : List ℤ) :
    ∀ (a : Bool) (ys : List ℤ),
      alarmRun a (xs ++ ys) =
        ((alarmRun (alarmRun a xs).1 ys).1,
         (alarmRun a xs).2.1 + (alarmRun (alarmRun a xs).1 ys).2.1,
         (alarmRun a xs).2.2 + (alarmRun (alarmRun a xs).1 ys).2.2) := by
  induction xs with
  | nil => intro a ys; simp [alarmRun]
  | cons x xs ih =>
    intro a ys
    simp only [List.cons_append, alarmRun, List.append_eq, ih, Nat.add_assoc]

/-- While the flag is clear and the score never exceeds the raise threshold
200, no event fires and the flag stays clear. -/
theorem alarmRun_quiet_low (xs : List ℤ) (h : ∀ x ∈ xs, x ≤ 200) :
    alarmRun false xs = (false, 0, 0) := by
  induction xs with
  | nil => rfl
  | cons x xs ih =>
    have hx := h x (by simp)
    have hrest : ∀ y ∈ xs, y ≤ 200 := fun y hy => h y (by simp [hy])
    have hstep : alarmStep false x = (false, false, false) := by
      simp [alarmStep, (by omega : ¬ 200 < x)] <;> omega
    simp [alarmRun, hstep, ih hrest]

/-- While the flag is set and the score stays above the re-arm threshold
180, no event fires and the flag stays set (no re-fire while sustained). -/
theorem alarmRun_quiet_high (xs : List ℤ) (h : ∀ x ∈ xs, 180 < x) :
    alarmRun true xs = (true, 0, 0) := by
  induction xs with
  | nil => rfl
  | cons x xs ih =>
    have hx := h x (by simp)
    have hrest : ∀ y ∈ xs, 180 < y := fun y hy => h y (by simp [hy])
    have hstep : alarmStep true x = (true, false, false) := by
      simp [alarmStep, (by omega : ¬ x ≤ 180)] <;> omega
    simp [alarmRun, hstep, ih hrest]

/-- C3: the alarm is edge-triggered with a deadband.  The beep fires on a
poll exactly when the score exceeds 200 and the flag is clear; while the
flag is set no further beep fires and the flag persists as long as the
score stays above 180; the flag is cleared exactly when the score falls to
180 or below (a re-arm threshold strictly below the raising threshold 200)
with the flag set; and any score sequence decomposed as a below-200 rise, a
non-empty above-200 stretch, an optional stretch inside the (180, 200]
deadband, and a non-empty tail at or below 180 produces exactly one raise
event and exactly one clear event. -/
theorem alarm_hysteresis (a : Bool) (x : ℤ) (A B C D : List ℤ) :
    ((alarmStep a x).2.1 = true ↔ 200 < x ∧ a = false) ∧
    ((alarmStep a x).2.2 = true ↔ x ≤ 180 ∧ a = true) ∧
    ((180 : ℤ) < 200) ∧
    (a = true → 180 < x →
      (alarmStep a x).1 = true ∧ (alarmStep a x).2.1 = false) ∧
    ((∀ y ∈ A, y ≤ 200) → (∀ y ∈ B, 200 < y) → B ≠ [] →
      (∀ y ∈ C, 180 < y ∧ y ≤ 200) → (∀ y ∈ D, y ≤ 180) → D ≠ [] →
      (alarmRun false (A ++ B ++ C ++ D)).2.1 = 1 ∧
      (alarmRun false (A ++ B ++ C ++ D)).2.2 = 1) := by
  refine ⟨?_, ?_, by norm_num, fun ha hx => ?_, ?_⟩
  · by_cases hc : 200 < x ∧ a = false <;> simp [alarmStep, hc] <;> omega
  · by_cases hx : x ≤ 180
    · have h2 : ¬ 200 < x := by omega
      by_cases ha : a = true <;> simp [alarmStep, hx, h2, ha] <;> omega
    · simp [alarmStep, hx] <;> omega
  · subst ha
    constructor
    · by_cases h2 : 200 < x <;>
        simp [alarmStep, h2, (by omega : ¬ x ≤ 180)] <;> omega
    · simp [alarmStep] <;> omega
  · intro hA hB hBne hC hD hDne
    obtain ⟨b, Bt, rfl⟩ := List.exists_cons_of_ne_nil hBne
    obtain ⟨d, Dt, rfl⟩ := List.exists_cons_of_ne_nil hDne
    have hb : 200 < b := hB b (by simp)
    have hd : d ≤ 180 := hD d (by simp)
    have hstepb : alarmStep false b = (true, true, false) := by
      simp [alarmStep, hb, (by omega : ¬ b ≤ 180)] <;> omega
    have hstepd : alarmStep true d = (false, false, true) := by
      simp [alarmStep, hd, (by omega : ¬ 200 < d)] <;> omega
    have hBrun : alarmRun false (b :: Bt) = (true, 1, 0) := by
      have : alarmRun true Bt = (true, 0, 0) :=
        alarmRun_quiet_high Bt (fun y hy => by
          have := hB y (by simp [hy]); omega)
      simp [alarmRun, hstepb, this]
    have hDrun : alarmRun true (d :: Dt) = (false, 0, 1) := by
      have : alarmRun false Dt = (false, 0, 0) :=
        alarmRun_quiet_low Dt (fun y hy => by
          have := hD y (by simp [hy]); omega)
      simp [alarmRun, hstepd, this]
    have hArun := alarmRun_quiet_low A hA
    have hCrun : alarmRun true C = (true, 0, 0) :=
      alarmRun_quiet_high C (fun y hy => (hC y hy).1)
    have hfull : alarmRun false (A ++ (b :: Bt) ++ C ++ (d :: Dt)) =
        (false, 1, 1) := by
      rw [alarmRun_append (A ++ (b :: Bt) ++ C), alarmRun_append (A ++ (b :: Bt)),
        alarmRun_append A, hArun, hBrun]
      simp [hCrun, hDrun]
    rw [hfull]
    exact ⟨rfl, rfl⟩

/-- Witness for C3: concrete step inputs on both sides of each threshold
and the concrete rise-then-fall sequence
`[50, 150] ++ [210, 300, 250] ++ [190] ++ [100, 50]`, which produces
exactly one raise and one clear. -/
theorem alarm_hysteresis_witness :
    ((alarmStep false 250).2.1 = true ↔ 200 < (250 : ℤ) ∧ false = false) ∧
    ((alarmStep true 100).2.2 = true ↔ (100 : ℤ) ≤ 180 ∧ true = true) ∧
    (alarmStep true 250).1 = true ∧ (alarmStep true 250).2.1 = false ∧
    (alarmRun false ([50, 150] ++ [210, 300, 250] ++ [190] ++ [100, 50])).2.1 = 1 ∧
    (alarmRun false ([50, 150] ++ [210, 300, 250] ++ [190] ++ [100, 50])).2.2 = 1 := by
  have h := alarm_hysteresis false 250 [50, 150] [210, 300, 250] [190] [100, 50]
  have h2 := alarm_hysteresis true 100 [] [] [] []
  have h3 := alarm_hysteresis true 250 [] [] [] []
  have hseq := h.2.2.2.2 (by decide) (by decide) (by decide) (by decide)
    (by decide) (by decide)
  exact ⟨h.1, h2.2.1, (h3.2.2.2.1 rfl (by norm_num)).1,
    (h3.2.2.2.1 rfl (by norm_num)).2, hseq.1, hseq.2⟩

/-- The source's two-step `t_fine` computation agrees with the spec's
squared-term formula. -/
theorem tFineQ_eq_spec (t1 t2 t3 raw : ℚ) :
    tFineQ t1 t2 t3 raw = tFineSpecQ t1 t2 t3 raw := by
  rw [tFineQ, tFineSpecQ]; ring

/-- C5: on every successful poll the reported temperature equals the spec
formula `t_fine / 5120` with `var1 = (raw/16384 − t1/1024) × t2` and
`var2 = ((raw/131072 − t1/8192)²) × t3 × 16`, and the reported humidity is
computed from that same `t_fine` value (the retained intermediate, not a
recomputation); with `t1 = 26000`, `t2 = 26500`, `t3 = 3` and the raw ADC
code 495127 the output is within ±0.1 °C of 25.0 °C. -/
theorem temperature_compensation (c : Cal) (data : List ℕ)
    (h : ¬ data.length < 15) :
    (getReadingsPlugin c data).map (fun r => r.temperature) =
      some (tempSpecQ (c.t1 : ℚ) (c.t2 : ℚ) (c.t3 : ℚ) (rawTempOf data : ℚ)) ∧
    (getReadingsPlugin c data).map (fun r => r.humidity) =
      some (humidityFromTFine c
        (tFineSpecQ (c.t1 : ℚ) (c.t2 : ℚ) (c.t3 : ℚ) (rawTempOf data : ℚ))
        (rawHumOf data : ℚ)) ∧
    |tempSpecQ 26000 26500 3 495127 - 25| ≤ 1 / 10 := by
  refine ⟨?_, ?_, ?_⟩
  · rw [getReadingsPlugin, if_neg h]
    simp [tempSpecQ, tFineQ_eq_spec]
  · rw [getReadingsPlugin, if_neg h]
    simp [tFineQ_eq_spec]
  · rw [abs_le]
    constructor <;> norm_num [tempSpecQ, tFineSpecQ]

/-- Witness for C5 on a concrete 17-byte data block whose temperature bytes
encode the raw code 495127, with the default calibration set. -/
theorem temperature_compensation_witness :
    (getReadingsPlugin defaultCal
        [0, 0, 0, 0, 0, 0x78, 0xE1, 0x70, 0, 0, 0, 0, 0, 0, 0, 0, 0]).map
        (fun r => r.temperature) =
      some (tempSpecQ ((defaultCal.t1 : ℕ) : ℚ) ((defaultCal.t2 : ℤ) : ℚ)
        ((defaultCal.t3 : ℤ) : ℚ)
        ((rawTempOf [0, 0, 0, 0, 0, 0x78, 0xE1, 0x70, 0, 0, 0, 0, 0, 0, 0, 0, 0] : ℕ) : ℚ)) ∧
    |tempSpecQ 26000 26500 3 495127 - 25| ≤ 1 / 10 := by
  have h := temperature_compensation defaultCal
    [0, 0, 0, 0, 0, 0x78, 0xE1, 0x70, 0, 0, 0, 0, 0, 0, 0, 0, 0] (by decide)
  exact ⟨h.1, h.2.2⟩

/-- C6 (amended): in the native service the reported pressure follows the
two nested polynomial passes over `p1..p10`: when the first-pass
denominator `var1` is non-zero the second pass is applied (then `/100` to
hPa), and when `var1 = 0` the second pass is skipped and the raw
proportional estimate `1048576 − raw_pres` is returned (scaled by `/100`)
without error — the division by `var1` is only taken in the non-zero
branch. -/
theorem pressure_two_pass (c : PCal) (tf raw : ℚ) :
    (firstPassVar1 c tf ≠ 0 →
      pressureNative c tf raw = secondPassPressure c tf raw / 100) ∧
    (firstPassVar1 c tf = 0 →
      pressureNative c tf raw = (1048576 - raw) / 100) := by
  constructor
  · intro h
    simp only [pressureNative]
    rw [if_pos (by simpa only [firstPassVar1] using h)]
    simp only [secondPassPressure, firstPassVar1, firstPassVar2]
  · intro h
    simp only [pressureNative]
    rw [if_neg (by simp only [firstPassVar1] at h; simp [h])]

/-- Witness for C6: a coefficient set with `p1 = 12500` and all other
coefficients zero has `var1 = 12500 ≠ 0`, so the second pass applies; a
coefficient set with `p1 = 0` has `var1 = 0`, so the raw proportional
estimate is returned. -/
theorem pressure_two_pass_witness :
    pressureNative ⟨12500, 0, 0, 0, 0, 0, 0, 0, 0, 0⟩ 0 400000 =
      secondPassPressure ⟨12500, 0, 0, 0, 0, 0, 0, 0, 0, 0⟩ 0 400000 / 100 ∧
    pressureNative ⟨0, 0, 0, 0, 0, 0, 0, 0, 0, 0⟩ 0 400000 =
      (1048576 - 400000) / 100 := by
  constructor
  · exact (pressure_two_pass ⟨12500, 0, 0, 0, 0, 0, 0, 0, 0, 0⟩ 0 400000).1
      (by norm_num [firstPassVar1])
  · exact (pressure_two_pass ⟨0, 0, 0, 0, 0, 0, 0, 0, 0, 0⟩ 0 400000).2
      (by norm_num [firstPassVar1])

/-- C6 counterexample: the plugin driver reports `raw_pres / 100` with no
polynomial pass at all.  On a successful poll with pressure bytes encoding
`raw_pres = 400000` it reports 4000 hPa, while the two-pass computation
with the concrete coefficient set `p1 = 12500`, `p2..p10 = 0` (first-pass
`var1 = 12500 ≠ 0`) yields 81072/25 = 3242.88. -/
theorem pressure_plugin_cex :
    (getReadingsPlugin defaultCal
        [0, 0, 0x61, 0xA8, 0, 0, 0, 0, 0, 0, 0, 0, 0, 0, 0, 0, 0]).map
        (fun r => r.pressure) =
      some (((rawPresOf [0, 0, 0x61, 0xA8, 0, 0, 0, 0, 0, 0, 0, 0, 0, 0, 0, 0, 0] : ℕ) : ℚ) / 100) ∧
    rawPresOf [0, 0, 0x61, 0xA8, 0, 0, 0, 0, 0, 0, 0, 0, 0, 0, 0, 0, 0] = 400000 ∧
    firstPassVar1 ⟨12500, 0, 0, 0, 0, 0, 0, 0, 0, 0⟩ 0 ≠ 0 ∧
    pressureNative ⟨12500, 0, 0, 0, 0, 0, 0, 0, 0, 0⟩ 0 400000 = 81072 / 25 ∧
    ((400000 : ℚ) / 100 ≠ 81072 / 25) := by
  refine ⟨?_, by decide, by norm_num [firstPassVar1], ?_, by norm_num⟩
  · rw [getReadingsPlugin, if_neg (by decide)]
    rfl
  · rw [pressureNative]
    norm_num

/-- C9 (amended): the native service checks the chip-identification
register 0xD0 first and, on any value other than 0x61 (or a failed id
read), initialization fails having attempted no read other than 0xD0 — in
particular no calibration register is read.  The plugin driver performs no
chip-id check at all: its initialization never touches register 0xD0 and
its first attempted read is always the calibration register 0xE9. -/
theorem chip_id_gate (rd : ℕ → ℕ → Except Unit (List ℕ)) :
    ((∀ l, rd 0xD0 1 = .ok l → l.getD 0 0 ≠ 0x61) →
      initSensorNative rd = (none, [(0xD0, 1)])) ∧
    ((0xD0, 1) ∉ (loadCalibrationPlugin rd).2 ∧
      (loadCalibrationPlugin rd).2.head? = some (0xE9, 2)) := by
  constructor
  · intro h
    rcases hid : rd 0xD0 1 with u | l
    · simp [initSensorNative, hid]
    · simp only [initSensorNative, hid]
      rw [if_pos (h l hid)]
  · rcases h1 : rd 0xE9 2 with u | t1d
    · simp [loadCalibrationPlugin, h1]
    · rcases h2 : rd 0x8A 3 with u | t23d
      · simp [loadCalibrationPlugin, h1, h2]
      · rcases h3 : rd 0xE1 3 with u | h1d
        · simp [loadCalibrationPlugin, h1, h2, h3]
        · rcases h4 : rd 0xE4 5 with u | h2d
          · simp [loadCalibrationPlugin, h1, h2, h3, h4]
          · simp [loadCalibrationPlugin, h1, h2, h3, h4]

/-- Witness for C9 on the concrete bus whose chip id is 0: the native
initialization fails after the single id read, while the plugin starts
with the calibration read of 0xE9. -/
theorem chip_id_gate_witness :
    initSensorNative rdChipZero = (none, [(0xD0, 1)]) ∧
    (loadCalibrationPlugin rdChipZero).2.head? = some (0xE9, 2) := by
  have h := chip_id_gate rdChipZero
  exact ⟨h.1 (fun l hl => by
    rw [show rdChipZero 0xD0 1 = .ok [0] from rfl] at hl
    cases hl
    decide), h.2.2⟩

/-- C9 counterexample: on the bus `rdChipZero`, whose identification
register 0xD0 reads 0 ≠ 0x61, the plugin driver's initialization
nevertheless reads the calibration registers (its attempted-read trace is
the full calibration sequence, never consulting 0xD0) and completes with a
decoded `t1 = 0` instead of failing. -/
theorem chip_id_plugin_cex :
    rdChipZero 0xD0 1 = .ok [0] ∧ (0 : ℕ) ≠ 0x61 ∧
    (loadCalibrationPlugin rdChipZero).2 =
      [(0xE9, 2), (0x8A, 3), (0xE1, 3), (0xE4, 5)] ∧
    (loadCalibrationPlugin rdChipZero).1.t1 = 0 := by
  refine ⟨rfl, by decide, ?_, ?_⟩
  · simp [loadCalibrationPlugin, rdChipZero]
  · simp [loadCalibrationPlugin, rdChipZero]

/-- C10: any failure during the plugin's calibration load is absorbed
silently.  A raised bus error on any of the four block reads yields the
full hard-coded default set {t1 = 26000, t2 = 26500, t3 = 3, h1 = 800,
h2 = 800, h3 = 0, h4 = 45, h5 = 20, h6 = 120, h7 = −100}; a read that
returns fewer bytes than expected yields the defaults for that coefficient
group; and subsequent polls proceed to compensate with the resulting
coefficients (here: the default temperature coefficients) instead of
reporting an initialization error. -/
theorem calibration_silent_defaults (rd : ℕ → ℕ → Except Unit (List ℕ)) :
    (rd 0xE9 2 = .error () → (loadCalibrationPlugin rd).1 = defaultCal) ∧
    (rd 0x8A 3 = .error () → (loadCalibrationPlugin rd).1 = defaultCal) ∧
    (rd 0xE1 3 = .error () → (loadCalibrationPlugin rd).1 = defaultCal) ∧
    (rd 0xE4 5 = .error () → (loadCalibrationPlugin rd).1 = defaultCal) ∧
    (∀ t1d t23d h1d h2d, rd 0xE9 2 = .ok t1d → rd 0x8A 3 = .ok t23d →
      rd 0xE1 3 = .ok h1d → rd 0xE4 5 = .ok h2d →
      (¬(2 ≤ t1d.length ∧ 3 ≤ t23d.length) →
        (loadCalibrationPlugin rd).1.t1 = 26000 ∧
        (loadCalibrationPlugin rd).1.t2 = 26500 ∧
        (loadCalibrationPlugin rd).1.t3 = 3) ∧
      (¬(3 ≤ h1d.length ∧ 5 ≤ h2d.length) →
        (loadCalibrationPlugin rd).1.h1 = 800 ∧
        (loadCalibrationPlugin rd).1.h2 = 800 ∧
        (loadCalibrationPlugin rd).1.h3 = 0 ∧
        (loadCalibrationPlugin rd).1.h4 = 45 ∧
        (loadCalibrationPlugin rd).1.h5 = 20 ∧
        (loadCalibrationPlugin rd).1.h6 = 120 ∧
        (loadCalibrationPlugin rd).1.h7 = -100)) ∧
    (∀ data : List ℕ, ¬ data.length < 15 →
      (getReadingsPlugin defaultCal data).map (fun r => r.temperature) =
        some (tFineQ 26000 26500 3 (rawTempOf data : ℚ) / 5120)) := by
  refine ⟨fun h => ?_, fun h => ?_, fun h => ?_, fun h => ?_,
    fun t1d t23d h1d h2d ha hb hc hd => ⟨fun hshort => ?_, fun hshort => ?_⟩,
    fun data h => ?_⟩
  · simp [loadCalibrationPlugin, h]
  · rcases h1 : rd 0xE9 2 with u | t1d
    · simp [loadCalibrationPlugin, h1]
    · simp [loadCalibrationPlugin, h1, h]
  · rcases h1 : rd 0xE9 2 with u | t1d
    · simp [loadCalibrationPlugin, h1]
    · rcases h2 : rd 0x8A 3 with u | t23d
      · simp [loadCalibrationPlugin, h1, h2]
      · simp [loadCalibrationPlugin, h1, h2, h]
  · rcases h1 : rd 0xE9 2 with u | t1d
    · simp [loadCalibrationPlugin, h1]
    · rcases h2 : rd 0x8A 3 with u | t23d
      · simp [loadCalibrationPlugin, h1, h2]
      · rcases h3 : rd 0xE1 3 with u | h1d
        · simp [loadCalibrationPlugin, h1, h2, h3]
        · simp [loadCalibrationPlugin, h1, h2, h3, h]
  · simp [loadCalibrationPlugin, ha, hb, hc, hd, hshort]
  · simp [loadCalibrationPlugin, ha, hb, hc, hd, hshort]
  · rw [getReadingsPlugin, if_neg h]
    norm_num [defaultCal]

/-- Witness for C10: on the all-failing bus the full default set results;
on a bus whose first block read is one byte short the temperature defaults
result; and a poll on a full-length data block with the default set yields
a temperature computed from the defaults. -/
theorem calibration_silent_defaults_witness :
    (loadCalibrationPlugin rdFailAll).1 = defaultCal ∧
    (loadCalibrationPlugin (rdBytes [0] [0, 0, 0] [0, 0, 0] [0, 0, 0, 0, 0])).1.t1 = 26000 ∧
    (getReadingsPlugin defaultCal
        [0, 0, 0, 0, 0, 0, 0, 0, 0, 0, 0, 0, 0, 0, 0, 0, 0]).map
        (fun r => r.temperature) =
      some (tFineQ 26000 26500 3
        ((rawTempOf [0, 0, 0, 0, 0, 0, 0, 0, 0, 0, 0, 0, 0, 0, 0, 0, 0] : ℕ) : ℚ) / 5120) := by
  refine ⟨(calibration_silent_defaults rdFailAll).1 rfl, ?_, ?_⟩
  · exact (((calibration_silent_defaults
      (rdBytes [0] [0, 0, 0] [0, 0, 0] [0, 0, 0, 0, 0])).2.2.2.2.1
      [0] [0, 0, 0] [0, 0, 0] [0, 0, 0, 0, 0] rfl rfl rfl rfl).1
      (by decide)).1
  · exact (calibration_silent_defaults rdFailAll).2.2.2.2.2
      [0, 0, 0, 0, 0, 0, 0, 0, 0, 0, 0, 0, 0, 0, 0, 0, 0] (by decide)

end EdgeWasi
